import Mathlib

/-!
Verification of the fluid-simulation core of the repository (files
src/liquids/main.ts, src/liquids/fluidSimulation.ts, src/liquids/t.ts,
src/liquids/webglUtils.ts) against its natural-language specification.

The shader and driver code is shallowly embedded over exact rationals
(and over the reals where the source evaluates a transcendental
function).  GPU textures become total functions from integer texel
indices to rationals; fragment shaders become pure functions of their
varyings and samplers; the imperative ping-pong passes become explicit
state passing.
-/

/-! ## GLSL primitives -/

/-- GLSL clamp over the rationals: min (max x lo) hi. -/
def clampQ (x lo hi : ℚ) : ℚ := min (max x lo) hi

/-- GLSL step function: 0 when x is below the edge, 1 otherwise. -/
def glslStep (edge x : ℚ) : ℚ := if x < edge then 0 else 1

/-- GLSL mix (linear interpolation): a + (b - a) * t. -/
def mixQ (a b t : ℚ) : ℚ := a + (b - a) * t

/-- Brightness of an rgb triple as used in several shaders:
max(r, max(g, b)). -/
def max3 (c : ℚ × ℚ × ℚ) : ℚ := max c.1 (max c.2.1 c.2.2)

/-!
## Pointer state and the input adapter (main.ts, fluidSimulation.ts)
-/

/-- One entry of the pointer registry (interface IPointer, types.ts),
with the numeric fields over ℚ. -/
structure PointerState where
  id : ℤ
  texcoordX : ℚ
  texcoordY : ℚ
  prevTexcoordX : ℚ
  prevTexcoordY : ℚ
  deltaX : ℚ
  deltaY : ℚ
  down : Bool
  moved : Bool
  color : ℚ × ℚ × ℚ
deriving DecidableEq

/-- calcDeltaTime from main.ts.  The input is the raw elapsed wall-clock
time in milliseconds (now - lastUpdateTime); the code divides by 1000
and clamps with Math.min(dt, 0.05).  There is no lower clamp in the
source. -/
def calcDeltaTime (elapsedMs : ℚ) : ℚ := min (elapsedMs / 1000) (1/20)

/-- correctDeltaX from main.ts: when the canvas is taller than wide
(aspect ratio below 1) the horizontal delta is multiplied by the aspect
ratio; otherwise it is returned unchanged. -/
def correctDeltaX (canvasW canvasH delta : ℚ) : ℚ :=
  let aspect := canvasW / canvasH
  if aspect < 1 then delta * aspect else delta

/-- correctDeltaY from main.ts: when the canvas is wider than tall
(aspect ratio above 1) the vertical delta is divided by the aspect
ratio; otherwise it is returned unchanged. -/
def correctDeltaY (canvasW canvasH delta : ℚ) : ℚ :=
  let aspect := canvasW / canvasH
  if 1 < aspect then delta / aspect else delta

/-- updatePointerMoveData from main.ts: previous position becomes the
current one, the new position is normalised by the canvas size with the
y axis flipped, the deltas are aspect-corrected, and the moved flag is
set when either corrected delta exceeds 1e-5 in absolute value. -/
def updatePointerMoveData (canvasW canvasH : ℚ) (p : PointerState)
    (posX posY : ℚ) : PointerState :=
  let prevX := p.texcoordX
  let prevY := p.texcoordY
  let tX := posX / canvasW
  let tY := 1 - posY / canvasH
  let dX := correctDeltaX canvasW canvasH (tX - prevX)
  let dY := correctDeltaY canvasW canvasH (tY - prevY)
  { p with
    prevTexcoordX := prevX
    prevTexcoordY := prevY
    texcoordX := tX
    texcoordY := tY
    deltaX := dX
    deltaY := dY
    moved := decide (1/100000 < |dX|) || decide (1/100000 < |dY|) }

/-- A splat request as emitted by splatPointer in fluidSimulation.ts:
position, velocity delta and colour of one Gaussian injection. -/
structure SplatEvent where
  x : ℚ
  y : ℚ
  dx : ℚ
  dy : ℚ
  color : ℚ × ℚ × ℚ
deriving DecidableEq

/-- splatPointer from fluidSimulation.ts: the velocity delta is the
pointer delta scaled by SPLAT_FORCE. -/
def splatPointer (splatForce : ℚ) (p : PointerState) : SplatEvent :=
  ⟨p.texcoordX, p.texcoordY, p.deltaX * splatForce, p.deltaY * splatForce, p.color⟩

/-- Body of the pointers.forEach loop in applyInputs
(fluidSimulation.ts): a pointer that is down and moved emits one splat
and clears its moved flag; a pointer that is up clears its moved flag;
a pointer that is down but not moved is left untouched. -/
def applyInputsPointer (splatForce : ℚ) (p : PointerState) :
    PointerState × Option SplatEvent :=
  if p.moved && p.down then ({ p with moved := false }, some (splatPointer splatForce p))
  else if !p.down then ({ p with moved := false }, none)
  else (p, none)

/-- The pointer loop of applyInputs over the whole registry, collecting
the pointer-driven splats in order.  (The splat-stack branch that
precedes this loop in the source emits random splats and involves no
pointer, so it is not part of this model.) -/
def applyInputsPointers (splatForce : ℚ) :
    List PointerState → List PointerState × List SplatEvent
  | [] => ([], [])
  | p :: ps =>
    let r := applyInputsPointer splatForce p
    let rest := applyInputsPointers splatForce ps
    (r.1 :: rest.1, (r.2.elim rest.2 (fun e => e :: rest.2)))

/-- A concrete pointer record used by the counterexamples: at rest at
the origin of texture space, down, not moved. -/
def pointerAtOrigin : PointerState :=
  ⟨-1, 0, 0, 0, 0, 0, 0, true, false, (1/10, 1/10, 1/10)⟩

/-- Aspect correction of the raw pointer delta as the specification
states it (modelled from the spec for comparison with the code): when
the surface is wider than tall the horizontal delta is scaled by the
aspect ratio, when taller than wide the vertical delta is scaled by
1/aspect, and the other component is unchanged. -/
def correctDeltaSpecClaim (canvasW canvasH dX dY : ℚ) : ℚ × ℚ :=
  let aspect := canvasW / canvasH
  if 1 < aspect then (dX * aspect, dY)
  else if aspect < 1 then (dX, dY * (1 / aspect))
  else (dX, dY)

/-!
## Resolution selection and framebuffer allocation
(fluidSimulation.ts getResolution, webglUtils.ts createFBO)
-/

/-- JavaScript Math.round: rounds to the nearest integer, halves toward
positive infinity. -/
def jsRound (x : ℚ) : ℤ := ⌊x + 1/2⌋

/-- getResolution from fluidSimulation.ts with a canvas present: the
minor axis gets the configured resolution and the major axis is scaled
by the aspect ratio, both rounded and then clamped below by 1. -/
def getResolution (resolution : ℚ) (canvasW canvasH : ℕ) : ℤ × ℤ :=
  let aspect : ℚ := (canvasW : ℚ) / (canvasH : ℚ)
  let wh : ℤ × ℤ :=
    if 1 < aspect then
      (jsRound (resolution * aspect), jsRound resolution)
    else
      (jsRound resolution, jsRound (resolution / aspect))
  (max wh.1 1, max wh.2 1)

/-- Dimension validation of createFBO from webglUtils.ts: the function
throws on w <= 0 or h <= 0 and otherwise proceeds to allocate a texture
of exactly those dimensions. -/
def createFBO (w h : ℤ) : Except String (ℤ × ℤ) :=
  if w ≤ 0 ∨ h ≤ 0 then .error "Invalid dimensions for FBO texture"
  else .ok (w, h)

/-!
## Bloom pre-filter (fluidSimulation.ts applyBloom,
t.ts bloomPrefilterShaderSource)
-/

/-- Knee of the soft threshold as computed on the CPU in applyBloom:
BLOOM_THRESHOLD * BLOOM_SOFT_KNEE + 1e-5. -/
def bloomKnee (threshold softKnee : ℚ) : ℚ := threshold * softKnee + 1/100000

/-- The curve uniform as computed on the CPU in applyBloom:
(threshold - knee, knee * 2, 0.25 / knee). -/
def bloomCurve (threshold softKnee : ℚ) : ℚ × ℚ × ℚ :=
  let knee := bloomKnee threshold softKnee
  (threshold - knee, knee * 2, (1/4) / knee)

/-- Fragment shader bloomPrefilterShaderSource from t.ts: brightness is
max(r,g,b); the soft-knee quantity is curve.z times the square of
clamp(br - curve.x, 0, curve.y); the colour is scaled by
max(rq, step(threshold, br)) / max(br, 1e-4); the output alpha is 1. -/
def bloomPrefilterFragment (curve : ℚ × ℚ × ℚ) (threshold : ℚ)
    (c : ℚ × ℚ × ℚ) : (ℚ × ℚ × ℚ) × ℚ :=
  let br := max3 c
  let rq0 := clampQ (br - curve.1) 0 curve.2.1
  let rq := curve.2.2 * rq0 * rq0
  let scale := max rq (glslStep threshold br) / max br (1/10000)
  ((c.1 * scale, c.2.1 * scale, c.2.2 * scale), 1)

/-- The scale factor the claim attributes to the pre-filter (modelled
from the spec for comparison with the code): the hard-threshold branch
is br - threshold instead of the code's step(threshold, br). -/
def bloomPrefilterScaleClaim (curve : ℚ × ℚ × ℚ) (threshold br : ℚ) : ℚ :=
  let rq0 := clampQ (br - curve.1) 0 curve.2.1
  let rq := curve.2.2 * rq0 * rq0
  max rq (br - threshold) / max br (1/10000)

/-!
## Display compositor final stage (t.ts displayShaderSource)
-/

/-- Fragment shader displayShaderSource from t.ts compiled with none of
the SHADING, BLOOM, SUNRAYS keywords: the dye sample c passes through
unchanged and the output is vec4(c, clamp(max(c.r, max(c.g, c.b)), 0, 1)).
Only the alpha channel goes through the clamp; the colour channels are
written as computed.  (The keyword variants share this final write.) -/
def displayFragmentBase (c : ℚ × ℚ × ℚ) : (ℚ × ℚ × ℚ) × ℚ :=
  (c, clampQ (max3 c) 0 1)

/-!
## Advection (t.ts advectionShaderSource, fluidSimulation.ts step
passes 7 and 8)

A texture is a total function from integer texel indices to rationals.
Sampling a texture with linear filtering at an arbitrary coordinate is
the bilinear convex combination that the MANUAL_FILTERING variant of
the advection shader spells out in its bilerp function; the embedding
uses that definition for both the hardware and the manual path.
-/

/-- A single-channel field texture: texel index to value. -/
def GridField : Type := ℤ × ℤ → ℚ

/-- Centre of texel i on an axis with n texels, in [0,1] texture
coordinates: (i + 0.5) / n. -/
def texelCenter (n : ℕ) (i : ℤ) : ℚ := ((i : ℚ) + 1/2) / (n : ℚ)

/-- Bilinear fetch, transcribed from the bilerp function of
advectionShaderSource: st = uv/tsize - 0.5, the four taps are the
texels at floor(st) and its right/top neighbours (each tap is a nearest
fetch at a texel centre), combined with mix weights fract(st). -/
def bilerp (g : GridField) (uv tsize : ℚ × ℚ) : ℚ :=
  let st : ℚ × ℚ := (uv.1 / tsize.1 - 1/2, uv.2 / tsize.2 - 1/2)
  let iuv : ℤ × ℤ := (⌊st.1⌋, ⌊st.2⌋)
  let fuv : ℚ × ℚ := (Int.fract st.1, Int.fract st.2)
  let a := g iuv
  let b := g (iuv.1 + 1, iuv.2)
  let c := g (iuv.1, iuv.2 + 1)
  let d := g (iuv.1 + 1, iuv.2 + 1)
  mixQ (mixQ a b fuv.1) (mixQ c d fuv.1) fuv.2

/-- Fragment shader advectionShaderSource from t.ts, one channel: the
back-traced coordinate is vUv - dt * velocity(vUv), the source is
sampled there bilinearly, and the result is multiplied by the decay
factor 1 / (1 + dissipation * dt). -/
def advectionFragment (uVelocity : ℚ × ℚ → ℚ × ℚ) (uSource : GridField)
    (sourceTexelSize : ℚ × ℚ) (dt dissipation : ℚ) (vUv : ℚ × ℚ) : ℚ :=
  let vel := uVelocity vUv
  let coord : ℚ × ℚ := (vUv.1 - dt * vel.1, vUv.2 - dt * vel.2)
  let result := bilerp uSource coord sourceTexelSize
  result * (1 / (1 + dissipation * dt))

/-- One dye-advection pass over a w by h dye grid (step pass 8 of
fluidSimulation.ts): every texel of the write buffer receives the
advection fragment evaluated at its centre, and the swap makes that the
new read buffer. -/
def dyeStep (w h : ℕ) (uVelocity : ℚ × ℚ → ℚ × ℚ) (dt dissipation : ℚ)
    (g : GridField) : GridField :=
  fun ij => advectionFragment uVelocity g (1/(w : ℚ), 1/(h : ℚ)) dt dissipation
    (texelCenter w ij.1, texelCenter h ij.2)

/-!
## Pressure pass (fluidSimulation.ts step passes 4 and 5,
t.ts clearShaderSource and pressureShaderSource)
-/

/-- Fragment shader pressureShaderSource from t.ts as a function of the
two samplers and the five varyings.  The neighbour samples go through
the shader's sequential edge replacements (eps = 0.01 in UV space)
before entering the Jacobi average (L + R + B + T - div) / 4. -/
def pressureFragment (uPressure uDivergence : ℚ × ℚ → ℚ)
    (vUv vL vR vT vB : ℚ × ℚ) : ℚ :=
  let l0 := uPressure vL
  let r0 := uPressure vR
  let t0 := uPressure vT
  let b0 := uPressure vB
  let divergence := uDivergence vUv
  let l1 := if vL.1 < 1/100 then r0 else l0
  let r1 := if 1 - 1/100 < vR.1 then l1 else r0
  let b1 := if vB.2 < 1/100 then t0 else b0
  let t1 := if 1 - 1/100 < vT.2 then b1 else t0
  (l1 + r1 + b1 + t1 - divergence) * (1/4)

/-- Nearest-filter texture fetch at an arbitrary UV coordinate for a
w by h texture (the pressure and divergence FBOs are allocated with
gl.NEAREST): the texel index is the floor of the coordinate scaled by
the texture size. -/
def nearestSample (w h : ℕ) (g : GridField) (uv : ℚ × ℚ) : ℚ :=
  g (⌊uv.1 * (w : ℚ)⌋, ⌊uv.2 * (h : ℚ)⌋)

/-- One Jacobi iteration over the whole w by h sim grid: at each texel
the pressure fragment runs with vUv at the texel centre and the
neighbour varyings offset by one texel, exactly as baseVertexShaderSource
computes them from the texelSize uniform. -/
def jacobiStep (w h : ℕ) (uDivergence g : GridField) : GridField :=
  fun ij =>
    let c : ℚ × ℚ := (texelCenter w ij.1, texelCenter h ij.2)
    pressureFragment (nearestSample w h g) (nearestSample w h uDivergence)
      c (c.1 - 1/(w : ℚ), c.2) (c.1 + 1/(w : ℚ), c.2)
      (c.1, c.2 + 1/(h : ℚ)) (c.1, c.2 - 1/(h : ℚ))

/-- The pressure fade (step pass 4): the clear program writes
value * pressure.read into every texel of pressure.write
(clearShaderSource scales the colour channels of the sample by the
value uniform; pressure lives in the red channel). -/
def fadeField (value : ℚ) (g : GridField) : GridField := fun ij => value * g ij

/-- A ping-pong pair of fields, read and write (IDoubleFBO). -/
structure DoubleField where
  read : GridField
  write : GridField

/-- One render-then-swap round on a ping-pong pair: the write buffer is
fully overwritten by a function of the read buffer, then the swap
exchanges the two roles. -/
def blitSwap (f : GridField → GridField) (s : DoubleField) : DoubleField :=
  ⟨f s.read, s.read⟩

/-- The pressure stage of step (fluidSimulation.ts lines 315-330):
first the fade blit with the PRESSURE config value followed by a swap,
then n iterations that each run the pressure program into the write
buffer and swap. -/
def pressurePassStep (w h : ℕ) (pressureValue : ℚ) (n : ℕ)
    (uDivergence : GridField) (s : DoubleField) : DoubleField :=
  (blitSwap (jacobiStep w h uDivergence))^[n] (blitSwap (fadeField pressureValue) s)

/-- The numeric configuration defaults of fluidSimulation.ts that the
claims refer to. -/
structure SimConfig where
  DENSITY_DISSIPATION : ℚ
  VELOCITY_DISSIPATION : ℚ
  PRESSURE : ℚ
  PRESSURE_ITERATIONS : ℕ
  CURL : ℚ
  SPLAT_RADIUS : ℚ
  SPLAT_FORCE : ℚ
  BLOOM_THRESHOLD : ℚ
  BLOOM_SOFT_KNEE : ℚ

/-- The config object literal of fluidSimulation.ts. -/
def defaultConfig : SimConfig :=
  ⟨1, 1/5, 4/5, 20, 30, 1/4, 6000, 3/5, 7/10⟩

/-- The everywhere-zero field, used by concrete instantiations. -/
def zeroField : GridField := fun _ => 0

/-- A field storing its own column index, used by concrete
instantiations. -/
def columnField : GridField := fun ij => (ij.1 : ℚ)

/-- A zeroed ping-pong pair, used by concrete instantiations. -/
def zeroPair : DoubleField := ⟨zeroField, zeroField⟩

/-- The everywhere-one field, used by concrete instantiations. -/
def oneField : GridField := fun _ => 1

/-- The identically zero velocity sampler (no flow anywhere). -/
def zeroVelocity : ℚ × ℚ → ℚ × ℚ := fun _ => (0, 0)

/-!
## Splat (t.ts splatShaderSource, fluidSimulation.ts correctRadius and
splat)

The splat shader evaluates a real exponential, so this part of the
embedding lives over ℝ.
-/

/-- correctRadius from fluidSimulation.ts: the radius is multiplied by
the canvas aspect ratio when that ratio exceeds 1, else unchanged. -/
noncomputable def correctRadius (aspect radius : ℝ) : ℝ :=
  if 1 < aspect then radius * aspect else radius

/-- Fragment shader splatShaderSource from t.ts: p = vUv - point, the
squared distance is dot(p, p) with no aspect scaling (the shader leaves
the aspectRatio uniform unused; the line scaling p.x is commented out),
the denominator is max(radius^2, 1e-6), and the Gaussian times the
colour is added to the sampled base value. -/
noncomputable def splatFragment (point vUv : ℝ × ℝ) (radius : ℝ)
    (color base : ℝ × ℝ × ℝ) : ℝ × ℝ × ℝ :=
  let p : ℝ × ℝ := (vUv.1 - point.1, vUv.2 - point.2)
  let sqDist := p.1 * p.1 + p.2 * p.2
  let safeRadiusSq := max (radius * radius) (1/1000000)
  let v := Real.exp (-(sqDist / safeRadiusSq))
  (base.1 + v * color.1, base.2.1 + v * color.2.1, base.2.2 + v * color.2.2)

/-- The splat contribution as the claim states it (modelled from the
spec for comparison with the code): the x component of the offset is
scaled by the aspect ratio inside the shader and the denominator is
radius^2. -/
noncomputable def splatFragmentSpecClaim (aspect : ℝ) (point vUv : ℝ × ℝ)
    (radius : ℝ) (color base : ℝ × ℝ × ℝ) : ℝ × ℝ × ℝ :=
  let p : ℝ × ℝ := (vUv.1 - point.1, vUv.2 - point.2)
  let sqDist := (aspect * p.1) * (aspect * p.1) + p.2 * p.2
  let v := Real.exp (-(sqDist / (radius * radius)))
  (base.1 + v * color.1, base.2.1 + v * color.2.1, base.2.2 + v * color.2.2)

/-!
## Theorems: claims C3, C4, C5
-/

/-- C3 counterexample: the claim states that no negative dt is ever
produced, but calcDeltaTime only clamps from above; a raw elapsed time
of -1000 ms (wall clock stepping backwards) yields dt = -1 < 0. -/
theorem calcDeltaTime_not_clamped_below : calcDeltaTime (-1000) < 0 := by
  norm_num [calcDeltaTime]

/-- C3 (amended): dt is clamped from above to 0.05 s for every raw
input; for nonnegative raw inputs dt lies in [0, 0.05]; a raw input of
0 yields 0 and a raw input of 0.06 s (60 ms) yields exactly 0.05;
negative raw inputs pass through unclamped. -/
theorem calcDeltaTime_clamp (e : ℚ) (he : 0 ≤ e) :
    calcDeltaTime e ≤ 1/20 ∧ 0 ≤ calcDeltaTime e ∧
    calcDeltaTime 0 = 0 ∧ calcDeltaTime 60 = 1/20 := by
  refine ⟨min_le_right _ _, le_min (by positivity) (by norm_num), ?_, ?_⟩ <;>
    norm_num [calcDeltaTime]

/-- C3 witness: the amended clamp theorem evaluated at the raw input
25 ms. -/
theorem calcDeltaTime_clamp_witness :
    calcDeltaTime 25 ≤ 1/20 ∧ 0 ≤ calcDeltaTime 25 ∧
    calcDeltaTime 0 = 0 ∧ calcDeltaTime 60 = 1/20 :=
  calcDeltaTime_clamp 25 (by norm_num)

/-- C4 counterexample: on a 1000000-square canvas a move to pixel
(6, 999994) gives corrected deltas (6e-6, 6e-6) whose absolute sum
1.2e-5 exceeds 1e-5, yet the moved flag stays false because the code
tests each component separately against 1e-5. -/
theorem updatePointerMoveData_sum_test_fails :
    (updatePointerMoveData 1000000 1000000 pointerAtOrigin 6 999994).moved = false ∧
    1/100000 <
      |(updatePointerMoveData 1000000 1000000 pointerAtOrigin 6 999994).deltaX| +
      |(updatePointerMoveData 1000000 1000000 pointerAtOrigin 6 999994).deltaY| := by
  have habs : |(3 : ℚ)/500000| = 3/500000 := abs_of_pos (by norm_num)
  constructor <;>
    norm_num [updatePointerMoveData, pointerAtOrigin, correctDeltaX, correctDeltaY, habs]

/-- A pointer whose moved flag is already clear never produces a splat
in the applyInputs pointer loop. -/
theorem applyInputsPointer_not_moved (splatForce : ℚ) (p : PointerState)
    (h : p.moved = false) : (applyInputsPointer splatForce p).2 = none := by
  simp [applyInputsPointer, h, apply_ite Prod.snd]

/-- C4 (amended): the moved flag is set exactly when one of the
aspect-corrected deltas exceeds 1e-5 in absolute value (component-wise
test, not the sum); consequently a pointer whose previous and current
positions coincide has moved = false and produces no splat in
applyInputs. -/
theorem updatePointerMoveData_moved_iff (canvasW canvasH : ℚ) (p : PointerState)
    (posX posY splatForce : ℚ)
    (hx : posX / canvasW = p.texcoordX) (hy : 1 - posY / canvasH = p.texcoordY) :
    ((updatePointerMoveData canvasW canvasH p posX posY).moved = true ↔
      (1/100000 < |(updatePointerMoveData canvasW canvasH p posX posY).deltaX| ∨
       1/100000 < |(updatePointerMoveData canvasW canvasH p posX posY).deltaY|)) ∧
    (updatePointerMoveData canvasW canvasH p posX posY).moved = false ∧
    (applyInputsPointer splatForce
        (updatePointerMoveData canvasW canvasH p posX posY)).2 = none := by
  have hdx : correctDeltaX canvasW canvasH (posX / canvasW - p.texcoordX) = 0 := by
    rw [hx, sub_self]
    simp [correctDeltaX]
  have hdy : correctDeltaY canvasW canvasH (1 - posY / canvasH - p.texcoordY) = 0 := by
    rw [hy, sub_self]
    simp [correctDeltaY]
  refine ⟨?_, ?_, ?_⟩
  · simp [updatePointerMoveData, Bool.or_eq_true, decide_eq_true_eq]
  · simp [updatePointerMoveData, hdx, hdy]
  · exact applyInputsPointer_not_moved _ _ (by simp [updatePointerMoveData, hdx, hdy])

/-- C4 witness: the amended theorem at a concrete stationary move on a
640 by 480 canvas. -/
theorem updatePointerMoveData_moved_iff_witness :
    ((updatePointerMoveData 640 480 pointerAtOrigin 0 480).moved = true ↔
      (1/100000 < |(updatePointerMoveData 640 480 pointerAtOrigin 0 480).deltaX| ∨
       1/100000 < |(updatePointerMoveData 640 480 pointerAtOrigin 0 480).deltaY|)) ∧
    (updatePointerMoveData 640 480 pointerAtOrigin 0 480).moved = false ∧
    (applyInputsPointer 6000 (updatePointerMoveData 640 480 pointerAtOrigin 0 480)).2 = none :=
  updatePointerMoveData_moved_iff 640 480 pointerAtOrigin 0 480 6000
    (by norm_num [pointerAtOrigin]) (by norm_num [pointerAtOrigin])

/-- C5 counterexample: on a canvas twice as wide as tall (aspect 2) and
a raw delta of (1, 1), the code produces (1, 1/2) — it leaves the
horizontal delta alone and divides the vertical one by the aspect —
while the claim predicts (2, 1). -/
theorem correctDelta_claim_false :
    (correctDeltaX 2 1 1, correctDeltaY 2 1 1) = ((1 : ℚ), (1/2 : ℚ)) ∧
    correctDeltaSpecClaim 2 1 1 1 = ((2 : ℚ), (1 : ℚ)) ∧
    (correctDeltaX 2 1 1, correctDeltaY 2 1 1) ≠ correctDeltaSpecClaim 2 1 1 1 := by
  refine ⟨?_, ?_, ?_⟩ <;>
    norm_num [correctDeltaX, correctDeltaY, correctDeltaSpecClaim, Prod.ext_iff]

/-- C5 (amended): the aspect correction applied to the raw delta
(current minus previous texture coordinate) works the other way round
from the claim: when the canvas is taller than wide the horizontal
delta is multiplied by the aspect ratio, when wider than tall the
vertical delta is divided by the aspect ratio, and the remaining
component is unchanged in each case.  Stated on the deltas produced by
updatePointerMoveData. -/
theorem updatePointerMoveData_aspect_correction
    (canvasW canvasH : ℚ) (p : PointerState) (posX posY : ℚ) :
    ((updatePointerMoveData canvasW canvasH p posX posY).deltaX,
     (updatePointerMoveData canvasW canvasH p posX posY).deltaY) =
    (let aspect := canvasW / canvasH
     let rawX := posX / canvasW - p.texcoordX
     let rawY := 1 - posY / canvasH - p.texcoordY
     if aspect < 1 then (rawX * aspect, rawY)
     else if 1 < aspect then (rawX, rawY / aspect)
     else (rawX, rawY)) := by
  simp only [updatePointerMoveData, correctDeltaX, correctDeltaY]
  by_cases h1 : canvasW / canvasH < 1
  · have h2 : ¬ (1 < canvasW / canvasH) := by linarith
    simp [h1, h2]
  · by_cases h2 : 1 < canvasW / canvasH
    · simp [h1, h2]
    · simp [h1, h2]

/-!
## Theorems: claims C9 and C10
-/

/-- C9: after the applyInputs pointer loop, every pointer in the
registry has moved = false, and a pointer-driven splat was emitted
during the call exactly for the pointers that entered with both
down = true and moved = true, in registry order. -/
theorem applyInputsPointers_spec (splatForce : ℚ) (ps : List PointerState) :
    (∀ q ∈ (applyInputsPointers splatForce ps).1, q.moved = false) ∧
    (applyInputsPointers splatForce ps).2 =
      (ps.filter (fun p => p.moved && p.down)).map (splatPointer splatForce) := by
  induction ps with
  | nil => simp [applyInputsPointers]
  | cons p ps ih =>
    refine ⟨?_, ?_⟩
    · intro q hq
      simp only [applyInputsPointers, List.mem_cons] at hq
      rcases hq with hq | hq
      · subst hq
        by_cases hm : p.moved <;> by_cases hd : p.down <;>
          simp [applyInputsPointer, hm, hd]
      · exact ih.1 q hq
    · simp only [applyInputsPointers, List.filter_cons]
      by_cases hm : p.moved <;> by_cases hd : p.down <;>
        simp [applyInputsPointer, hm, hd, ih.2, splatPointer]

/-- C10: for every positive configured resolution and every canvas with
at least one pixel on each axis, getResolution returns dimensions that
are both at least 1, and feeding them to createFBO takes the success
branch (the w <= 0 or h <= 0 throw is unreachable from getResolution
outputs). -/
theorem getResolution_createFBO_safe (resolution : ℚ) (canvasW canvasH : ℕ)
    (hres : 0 < resolution) (hw : 1 ≤ canvasW) (hh : 1 ≤ canvasH) :
    1 ≤ (getResolution resolution canvasW canvasH).1 ∧
    1 ≤ (getResolution resolution canvasW canvasH).2 ∧
    createFBO (getResolution resolution canvasW canvasH).1
        (getResolution resolution canvasW canvasH).2 =
      .ok (getResolution resolution canvasW canvasH) := by
  have h1 : 1 ≤ (getResolution resolution canvasW canvasH).1 := le_max_right _ 1
  have h2 : 1 ≤ (getResolution resolution canvasW canvasH).2 := le_max_right _ 1
  refine ⟨h1, h2, ?_⟩
  have hne : ¬ ((getResolution resolution canvasW canvasH).1 ≤ 0 ∨
      (getResolution resolution canvasW canvasH).2 ≤ 0) := by
    push_neg
    exact ⟨lt_of_lt_of_le one_pos h1, lt_of_lt_of_le one_pos h2⟩
  simp [createFBO, hne]

/-- C10 witness: a 1024 dye resolution on a one-pixel-tall 640 by 1
canvas still allocates a valid framebuffer. -/
theorem getResolution_createFBO_safe_witness :
    1 ≤ (getResolution 1024 640 1).1 ∧
    1 ≤ (getResolution 1024 640 1).2 ∧
    createFBO (getResolution 1024 640 1).1 (getResolution 1024 640 1).2 =
      .ok (getResolution 1024 640 1) :=
  getResolution_createFBO_safe 1024 640 1 (by norm_num) (by norm_num) (by norm_num)

/-!
## Theorems: claims C6, C7, C8
-/

/-- C6 counterexample: with the default BLOOM_THRESHOLD = 0.6 and
BLOOM_SOFT_KNEE = 0.7 and an input texel of colour (2, 0, 0), the code
scales by max(rq, step(threshold, br)) / br = 1/2 giving red = 1, while
the claim's formula max(rq, br - threshold) / br = 7/10 would give
red = 7/5. -/
theorem bloomPrefilter_claim_false :
    (bloomPrefilterFragment (bloomCurve (3/5) (7/10)) (3/5) (2, 0, 0)).1.1 = 1 ∧
    2 * bloomPrefilterScaleClaim (bloomCurve (3/5) (7/10)) (3/5) (max3 (2, 0, 0)) = 7/5 ∧
    (bloomPrefilterFragment (bloomCurve (3/5) (7/10)) (3/5) (2, 0, 0)).1.1 ≠
      2 * bloomPrefilterScaleClaim (bloomCurve (3/5) (7/10)) (3/5) (max3 (2, 0, 0)) := by
  refine ⟨?_, ?_, ?_⟩ <;>
    norm_num [bloomPrefilterFragment, bloomPrefilterScaleClaim, bloomCurve,
      bloomKnee, glslStep, clampQ, max3, max_def, min_def]

/-- C6 (amended): with the curve uniform computed by applyBloom from
the threshold and soft knee (curve = (threshold - knee, 2 knee,
0.25/knee) with knee = threshold * softKnee + 1e-5), the pre-filter
scales the colour by max(0.25/knee * clamp(br - (threshold - knee), 0,
2 knee)^2, step(threshold, br)) / max(br, 1e-4), where the hard branch
is the 0/1 indicator of br reaching the threshold rather than the
claim's br - threshold. -/
theorem bloomPrefilter_formula (threshold softKnee : ℚ) (c : ℚ × ℚ × ℚ) :
    bloomPrefilterFragment (bloomCurve threshold softKnee) threshold c =
      (let knee := threshold * softKnee + 1/100000
       let br := max3 c
       let rq := clampQ (br - (threshold - knee)) 0 (2 * knee)
       let scale := max ((1/4)/knee * rq ^ 2) (if threshold ≤ br then 1 else 0) /
         max br (1/10000)
       ((c.1 * scale, c.2.1 * scale, c.2.2 * scale), 1)) := by
  rcases lt_or_le (max3 c) threshold with h | h
  · simp only [bloomPrefilterFragment, bloomCurve, bloomKnee, glslStep,
      if_pos h, if_neg (not_le.mpr h)]
    ring_nf
  · simp only [bloomPrefilterFragment, bloomCurve, bloomKnee, glslStep,
      if_neg (not_lt.mpr h), if_pos h]
    ring_nf

/-- C7 counterexample: a dye sample of (2, 0, 0) flows through the
display shader's final write with its red channel still equal to 2; the
colour channels are not clamped to [0, 1], only the alpha is. -/
theorem display_color_not_clamped :
    (displayFragmentBase (2, 0, 0)).1 = ((2 : ℚ), (0 : ℚ), (0 : ℚ)) ∧
    (displayFragmentBase (2, 0, 0)).2 = 1 ∧
    ¬ (displayFragmentBase (2, 0, 0)).1.1 ≤ 1 := by
  refine ⟨?_, ?_, ?_⟩ <;> norm_num [displayFragmentBase, clampQ, max3, max_def, min_def]

/-- C7 (amended): at the display composite step only the alpha channel
is clamped to [0, 1]; it equals clamp(max(r,g,b), 0, 1) of the shaded
colour, which passes through to the colour channels unclamped; and the
advection pass does not clamp intermediate values either (a constant
field of any magnitude survives a zero-dt advection unchanged). -/
theorem displayFragment_alpha_clamped (c : ℚ × ℚ × ℚ) :
    (displayFragmentBase c).1 = c ∧
    (displayFragmentBase c).2 = clampQ (max3 c) 0 1 ∧
    0 ≤ (displayFragmentBase c).2 ∧ (displayFragmentBase c).2 ≤ 1 ∧
    (∀ (uVel : ℚ × ℚ → ℚ × ℚ) (d : ℚ) (ts uv : ℚ × ℚ),
      advectionFragment uVel (fun _ => c.1) ts 0 d uv = c.1) := by
  refine ⟨rfl, rfl, ?_, ?_, ?_⟩
  · exact le_min (le_max_right _ 0) zero_le_one
  · exact min_le_right _ 1
  · intro uVel d ts uv
    simp [advectionFragment, bilerp, mixQ]

/-- C8 counterexample: with aspect ratio 2, splat centre (0.5, 0.5),
fragment at (0.6, 0.5) and radius 0.1, the shader adds
exp(-(0.1^2 / 0.1^2)) = exp(-1) of the colour, while the claim's
formula with the x offset scaled by the aspect would add
exp(-((2 * 0.1)^2 / 0.1^2)) = exp(-4); the two contributions differ, so
the aspect ratio is not applied inside the shader. -/
theorem splatFragment_claim_false :
    splatFragment (1/2, 1/2) (3/5, 1/2) (1/10) (1, 1, 1) (0, 0, 0) ≠
      splatFragmentSpecClaim 2 (1/2, 1/2) (3/5, 1/2) (1/10) (1, 1, 1) (0, 0, 0) := by
  have hcode : (splatFragment (1/2, 1/2) (3/5, 1/2) (1/10) (1, 1, 1) (0, 0, 0)).1
      = Real.exp (-1) := by
    simp only [splatFragment]
    norm_num [max_def]
  have hclaim : (splatFragmentSpecClaim 2 (1/2, 1/2) (3/5, 1/2) (1/10) (1, 1, 1)
      (0, 0, 0)).1 = Real.exp (-4) := by
    simp only [splatFragmentSpecClaim]
    norm_num
  intro hEq
  have hfst := congrArg Prod.fst hEq
  rw [hcode, hclaim] at hfst
  have hlt : Real.exp (-4) < Real.exp (-1) := Real.exp_lt_exp.mpr (by norm_num)
  exact absurd hfst (ne_of_gt hlt)

/-- C8 (amended): the aspect ratio enters the splat only through the
radius uniform, which correctRadius multiplies by the aspect when the
aspect exceeds 1; the shader itself adds
color * exp(-(p.x^2 + p.y^2) / max(radius^2, 1e-6)) with no scaling of
the x offset.  Stated on the fragment evaluated at the pre-corrected
radius, as the splat function of fluidSimulation.ts invokes it. -/
theorem splat_aspect_via_radius (aspect baseRadius : ℝ) (point vUv : ℝ × ℝ)
    (color base : ℝ × ℝ × ℝ) :
    correctRadius aspect baseRadius =
      (if 1 < aspect then baseRadius * aspect else baseRadius) ∧
    splatFragment point vUv (correctRadius aspect baseRadius) color base =
      (let p : ℝ × ℝ := (vUv.1 - point.1, vUv.2 - point.2)
       let r := if 1 < aspect then baseRadius * aspect else baseRadius
       let v := Real.exp (-((p.1 * p.1 + p.2 * p.2) / max (r * r) (1/1000000)))
       (base.1 + v * color.1, base.2.1 + v * color.2.1, base.2.2 + v * color.2.2)) :=
  ⟨rfl, rfl⟩

/-!
## Theorems: claim C1 (pressure fade and Jacobi solve)
-/

/-- Reading a ping-pong pair after n render-and-swap rounds sees the
n-fold iterate of the pass applied to the original read buffer. -/
theorem blitSwap_iterate_read (f : GridField → GridField) (s : DoubleField) (n : ℕ) :
    ((blitSwap f)^[n] s).read = f^[n] s.read := by
  induction n generalizing s with
  | zero => rfl
  | succ n ih =>
    rw [Function.iterate_succ_apply, Function.iterate_succ_apply]
    exact ih (blitSwap f s)

/-- The texel centre scaled back by the texture size lands in texel i. -/
theorem texel_floor_center (n : ℕ) (hn : 0 < n) (i : ℤ) :
    ⌊texelCenter n i * (n : ℚ)⌋ = i := by
  have hne : ((n : ℚ)) ≠ 0 := Nat.cast_ne_zero.mpr hn.ne'
  have hrw : texelCenter n i * (n : ℚ) = (i : ℚ) + 1/2 := by
    unfold texelCenter
    field_simp
    ring
  rw [hrw, Int.floor_int_add]
  norm_num [Int.floor_eq_zero_iff, Set.mem_Ico]

/-- One texel to the left of the centre of texel i lands in texel i - 1. -/
theorem texel_floor_left (n : ℕ) (hn : 0 < n) (i : ℤ) :
    ⌊(texelCenter n i - 1/(n : ℚ)) * (n : ℚ)⌋ = i - 1 := by
  have hne : ((n : ℚ)) ≠ 0 := Nat.cast_ne_zero.mpr hn.ne'
  have hrw : (texelCenter n i - 1/(n : ℚ)) * (n : ℚ) = ((i - 1 : ℤ) : ℚ) + 1/2 := by
    unfold texelCenter
    push_cast
    field_simp
    ring
  rw [hrw, Int.floor_int_add]
  norm_num [Int.floor_eq_zero_iff, Set.mem_Ico]

/-- One texel to the right of the centre of texel i lands in texel i + 1. -/
theorem texel_floor_right (n : ℕ) (hn : 0 < n) (i : ℤ) :
    ⌊(texelCenter n i + 1/(n : ℚ)) * (n : ℚ)⌋ = i + 1 := by
  have hne : ((n : ℚ)) ≠ 0 := Nat.cast_ne_zero.mpr hn.ne'
  have hrw : (texelCenter n i + 1/(n : ℚ)) * (n : ℚ) = ((i + 1 : ℤ) : ℚ) + 1/2 := by
    unfold texelCenter
    push_cast
    field_simp
    ring
  rw [hrw, Int.floor_int_add]
  norm_num [Int.floor_eq_zero_iff, Set.mem_Ico]

/-- C1: the pressure stage of step first writes
pressure.read * PRESSURE into the write buffer and swaps (the
warm-start fade), then runs exactly PRESSURE_ITERATIONS render-and-swap
Jacobi rounds — the read buffer afterwards is the PRESSURE_ITERATIONS
fold of the Jacobi step applied to the faded field; the default
iteration count is 20; and away from the eps = 0.01 UV boundary bands
each Jacobi round computes
(p[i-1,j] + p[i+1,j] + p[i,j-1] + p[i,j+1] - div[i,j]) / 4 from the
previous iteration's pressure and the divergence field. -/
theorem pressure_pass_spec (w h : ℕ) (uDivergence : GridField) (s : DoubleField)
    (g : GridField) (i j : ℤ) (hw : 0 < w) (hh : 0 < h)
    (hL : ¬ (texelCenter w i - 1/(w : ℚ) < 1/100))
    (hR : ¬ (1 - 1/100 < texelCenter w i + 1/(w : ℚ)))
    (hB : ¬ (texelCenter h j - 1/(h : ℚ) < 1/100))
    (hT : ¬ (1 - 1/100 < texelCenter h j + 1/(h : ℚ))) :
    (pressurePassStep w h defaultConfig.PRESSURE defaultConfig.PRESSURE_ITERATIONS
        uDivergence s).read =
      (jacobiStep w h uDivergence)^[defaultConfig.PRESSURE_ITERATIONS]
        (fun ij => defaultConfig.PRESSURE * s.read ij) ∧
    defaultConfig.PRESSURE_ITERATIONS = 20 ∧
    jacobiStep w h uDivergence g (i, j) =
      (g (i - 1, j) + g (i + 1, j) + g (i, j - 1) + g (i, j + 1) -
        uDivergence (i, j)) * (1/4) := by
  refine ⟨?_, rfl, ?_⟩
  · unfold pressurePassStep
    rw [blitSwap_iterate_read]
    rfl
  · simp only [jacobiStep, pressureFragment, nearestSample]
    rw [if_neg hL, if_neg hR, if_neg hB, if_neg hT]
    rw [texel_floor_center w hw i, texel_floor_center h hh j,
      texel_floor_left w hw i, texel_floor_right w hw i,
      texel_floor_left h hh j, texel_floor_right h hh j]

/-- C1 witness: the pressure pass theorem on a 128 by 128 sim grid at
the interior texel (5, 5), with a linear pressure field and zero
divergence. -/
theorem pressure_pass_spec_witness :
    (pressurePassStep 128 128 defaultConfig.PRESSURE defaultConfig.PRESSURE_ITERATIONS
        zeroField zeroPair).read =
      (jacobiStep 128 128 zeroField)^[defaultConfig.PRESSURE_ITERATIONS]
        (fun ij => defaultConfig.PRESSURE * zeroPair.read ij) ∧
    defaultConfig.PRESSURE_ITERATIONS = 20 ∧
    jacobiStep 128 128 zeroField columnField (5, 5) =
      (columnField (5 - 1, 5) + columnField (5 + 1, 5) + columnField (5, 5 - 1) +
        columnField (5, 5 + 1) - zeroField (5, 5)) * (1/4) :=
  pressure_pass_spec 128 128 zeroField zeroPair columnField 5 5
    (by norm_num) (by norm_num)
    (by norm_num [texelCenter]) (by norm_num [texelCenter])
    (by norm_num [texelCenter]) (by norm_num [texelCenter])

/-!
## Theorems: claim C2 (dye dissipation decay)
-/

/-- Linear interpolation with a weight in [0, 1] stays within any bound
shared by its endpoints. -/
theorem abs_mixQ_le (a b t M : ℚ) (ha : |a| ≤ M) (hb : |b| ≤ M)
    (ht0 : 0 ≤ t) (ht1 : t ≤ 1) : |mixQ a b t| ≤ M := by
  have hrw : mixQ a b t = (1 - t) * a + t * b := by unfold mixQ; ring
  rw [hrw]
  calc |(1 - t) * a + t * b| ≤ |(1 - t) * a| + |t * b| := abs_add _ _
    _ = (1 - t) * |a| + t * |b| := by
        rw [abs_mul, abs_mul, abs_of_nonneg (by linarith : (0 : ℚ) ≤ 1 - t),
          abs_of_nonneg ht0]
    _ ≤ (1 - t) * M + t * M := by
        have h1 : (1 - t) * |a| ≤ (1 - t) * M :=
          mul_le_mul_of_nonneg_left ha (by linarith)
        have h2 : t * |b| ≤ t * M := mul_le_mul_of_nonneg_left hb ht0
        linarith
    _ = M := by ring

/-- Bilinear sampling is a convex combination of four texels, so it
stays within any bound shared by the whole field. -/
theorem abs_bilerp_le (g : GridField) (M : ℚ) (hM : ∀ ij, |g ij| ≤ M)
    (uv ts : ℚ × ℚ) : |bilerp g uv ts| ≤ M := by
  unfold bilerp
  exact abs_mixQ_le _ _ _ _
    (abs_mixQ_le _ _ _ _ (hM _) (hM _) (Int.fract_nonneg _) (Int.fract_lt_one _).le)
    (abs_mixQ_le _ _ _ _ (hM _) (hM _) (Int.fract_nonneg _) (Int.fract_lt_one _).le)
    (Int.fract_nonneg _) (Int.fract_lt_one _).le

/-- A bounded value scaled by a nonnegative factor is bounded by the
scaled bound. -/
theorem abs_mul_decay_le (b k M : ℚ) (hb : |b| ≤ M) (hk : 0 ≤ k) :
    |b * k| ≤ k * M := by
  rw [abs_mul, abs_of_nonneg hk, mul_comm]
  exact mul_le_mul_of_nonneg_left hb hk

/-- Bilinear sampling at a coordinate whose scaled offset is integral
degenerates to a single texel fetch. -/
theorem bilerp_int (g : GridField) (uv ts : ℚ × ℚ) (i j : ℤ)
    (hx : uv.1 / ts.1 - 1/2 = (i : ℚ)) (hy : uv.2 / ts.2 - 1/2 = (j : ℚ)) :
    bilerp g uv ts = g (i, j) := by
  unfold bilerp
  simp only [hx, hy, Int.floor_intCast, Int.fract_intCast, mixQ, mul_zero, add_zero]

/-- Bilinear sampling at a texel centre returns exactly that texel. -/
theorem bilerp_center (w h : ℕ) (hw : 0 < w) (hh : 0 < h) (g : GridField) (i j : ℤ) :
    bilerp g (texelCenter w i, texelCenter h j) (1/(w : ℚ), 1/(h : ℚ)) = g (i, j) := by
  have hwne : ((w : ℚ)) ≠ 0 := Nat.cast_ne_zero.mpr hw.ne'
  have hhne : ((h : ℚ)) ≠ 0 := Nat.cast_ne_zero.mpr hh.ne'
  refine bilerp_int g _ _ i j ?_ ?_
  · show texelCenter w i / (1/(w : ℚ)) - 1/2 = (i : ℚ)
    unfold texelCenter
    field_simp
    ring
  · show texelCenter h j / (1/(h : ℚ)) - 1/2 = (j : ℚ)
    unfold texelCenter
    field_simp
    ring

/-- With zero velocity the advection of a texel samples the texel
itself and only applies the decay factor. -/
theorem dyeStep_zero_vel (w h : ℕ) (hw : 0 < w) (hh : 0 < h)
    (dt dissipation : ℚ) (g : GridField) (i j : ℤ) :
    dyeStep w h zeroVelocity dt dissipation g (i, j) =
      (1 / (1 + dissipation * dt)) * g (i, j) := by
  simp only [dyeStep, advectionFragment, zeroVelocity, mul_zero, sub_zero]
  rw [bilerp_center w h hw hh g i j]
  ring

/-- Iterating the zero-velocity dye step n times multiplies every texel
by the n-th power of the decay factor. -/
theorem dyeStep_zero_vel_iterate (w h : ℕ) (hw : 0 < w) (hh : 0 < h)
    (dt dissipation : ℚ) (g : GridField) (n : ℕ) (i j : ℤ) :
    (dyeStep w h zeroVelocity dt dissipation)^[n] g (i, j) =
      (1 / (1 + dissipation * dt))^n * g (i, j) := by
  induction n with
  | zero => simp
  | succ n ih =>
    rw [Function.iterate_succ_apply',
      dyeStep_zero_vel w h hw hh dt dissipation _ i j, ih]
    ring

/-- C2: the advection decay factor 1 / (1 + DENSITY_DISSIPATION * dt)
is at most 1 whenever the dissipation and dt are nonnegative; every
advected sample of a dye field bounded by M in absolute value is
bounded by the factor times M and hence by M (max |dye| does not
increase in a splat-free frame); and over N frames of the splat-free
step with no flow the dye decays exactly by the factor to the N-th
power. -/
theorem dye_dissipation_decay (w h : ℕ) (dissipation dt M : ℚ)
    (g : GridField) (uVelocity : ℚ × ℚ → ℚ × ℚ) (hw : 0 < w) (hh : 0 < h)
    (hd : 0 ≤ dissipation) (hdt : 0 ≤ dt) (hM : ∀ ij, |g ij| ≤ M) :
    (1 / (1 + dissipation * dt) ≤ 1) ∧
    (∀ ts uv, |advectionFragment uVelocity g ts dt dissipation uv| ≤
      (1 / (1 + dissipation * dt)) * M) ∧
    (∀ ts uv, |advectionFragment uVelocity g ts dt dissipation uv| ≤ M) ∧
    (∀ (n : ℕ) (i j : ℤ),
      (dyeStep w h zeroVelocity dt dissipation)^[n] g (i, j) =
        (1 / (1 + dissipation * dt))^n * g (i, j)) := by
  have hpos : (0 : ℚ) < 1 + dissipation * dt := by positivity
  have hk1 : 1 / (1 + dissipation * dt) ≤ 1 := by
    rw [div_le_one hpos]
    nlinarith [mul_nonneg hd hdt]
  have hM0 : 0 ≤ M := le_trans (abs_nonneg _) (hM (0, 0))
  have hknn : (0 : ℚ) ≤ 1 / (1 + dissipation * dt) := by positivity
  have hadv : ∀ ts uv, |advectionFragment uVelocity g ts dt dissipation uv| ≤
      (1 / (1 + dissipation * dt)) * M := by
    intro ts uv
    simp only [advectionFragment]
    exact abs_mul_decay_le _ _ _ (abs_bilerp_le g M hM _ ts) hknn
  refine ⟨hk1, hadv, fun ts uv => le_trans (hadv ts uv) ?_,
    fun n i j => dyeStep_zero_vel_iterate w h hw hh dt dissipation g n i j⟩
  exact le_trans (mul_le_mul_of_nonneg_right hk1 hM0) (by rw [one_mul])

/-- C2 witness: the decay theorem on a 4 by 4 grid for the constant
field 1 with dissipation 1 and dt = 1/60. -/
theorem dye_dissipation_decay_witness :
    (1 / (1 + 1 * ((1 : ℚ)/60)) ≤ 1) ∧
    (∀ ts uv, |advectionFragment zeroVelocity oneField ts (1/60) 1 uv| ≤
      (1 / (1 + 1 * ((1 : ℚ)/60))) * 1) ∧
    (∀ ts uv, |advectionFragment zeroVelocity oneField ts (1/60) 1 uv| ≤ 1) ∧
    (∀ (n : ℕ) (i j : ℤ),
      (dyeStep 4 4 zeroVelocity (1/60) 1)^[n] oneField (i, j) =
        (1 / (1 + 1 * ((1 : ℚ)/60)))^n * oneField (i, j)) :=
  dye_dissipation_decay 4 4 1 (1/60) 1 oneField zeroVelocity
    (by norm_num) (by norm_num) (by norm_num) (by norm_num)
    (fun ij => by norm_num [oneField])
